import Mathlib

set_option maxRecDepth 8000

namespace WpScheduler

/-! # Shallow embedding of the conversational scheduling bot

Verification development for the WhatsApp call-scheduling bot.  The
definitions below are translated from the bot's main module: the
yes/no sentiment interpreter, the temporal resolver, the booking
conflict detector, the debounced session store and the conversation
state machine.  JavaScript regular expressions used by the source are
alternations of literal words wrapped in word boundaries; they are
modelled by an executable matcher over character lists that follows
the JS semantics of the word-boundary assertion. -/

/-- The apostrophe character (U+0027), used inside several lexicon entries. -/
def apoc : Char := Char.ofNat 39

/-- One-character string holding an apostrophe. -/
def aps : String := String.mk [apoc]

/-- JS regex word characters: letters, digits and the underscore. -/
def isWordChar (c : Char) : Bool :=
  c.isAlpha || c.isDigit || c == '_'

/-- Whether position `i` of the character list holds a word character
(out of range counts as a non-word position). -/
def wordAt (t : List Char) (i : Nat) : Bool :=
  match t[i]? with
  | some c => isWordChar c
  | none => false

/-- JS regex word boundary between positions `i - 1` and `i`: exactly one
of the two neighbouring positions holds a word character. -/
def boundaryAt (t : List Char) (i : Nat) : Bool :=
  if i = 0 then wordAt t 0 else wordAt t (i - 1) != wordAt t i

/-- The literal `pat` occurs at position `i` of `t` with word boundaries
on both sides, as required by a `\b(...)\b` JS pattern. -/
def matchesWordAt (t pat : List Char) (i : Nat) : Bool :=
  decide ((t.drop i).take pat.length = pat) && boundaryAt t i
    && boundaryAt t (i + pat.length)

/-- Model of testing a case-insensitive JS regex of the shape
`/\b(w1|w2|...)\b/i` whose alternatives are literal words or phrases:
some alternative occurs somewhere in the lowercased text with word
boundaries on both sides. -/
def patTest (alts : List String) (text : String) : Bool :=
  let t := text.data.map Char.toLower
  alts.any fun a =>
    (List.range (t.length + 1)).any fun i => matchesWordAt t a.data i

/-- Ternary sentiment label used throughout the bot. -/
inductive Sentiment
  | positive
  | negative
  | neutral
deriving DecidableEq

/-- Output of the external probabilistic text classifier: a label plus a
confidence score (scores are modelled as exact rationals). -/
structure AiSentiment where
  label : Sentiment
  score : ℚ
deriving DecidableEq

/-- Alternatives of the `yesPatterns` regex of `interpretYesNoSentiment`. -/
def yesPatterns : List String :=
  ["yes", "yeah", "yep", "sure", "okay", "ok", "fine", "good", "great",
   "absolutely", "definitely", "of course", "certainly", "right", "correct",
   "true", "agree", "accept", "interested", "want", "would like",
   "sounds good", "let" ++ aps ++ "s do it", "count me in"]

/-- Alternatives of the `noPatterns` regex of `interpretYesNoSentiment`. -/
def noPatterns : List String :=
  ["no", "nope", "nah", "not", "never", "refuse", "decline", "reject",
   "disagree", "don" ++ aps ++ "t", "won" ++ aps ++ "t", "can" ++ aps ++ "t",
   "shouldn" ++ aps ++ "t", "wouldn" ++ aps ++ "t", "uninterested",
   "not interested", "not really", "maybe not", "probably not"]

/-- `interpretYesNoSentiment(text, aiSentiment)`: reinterpretation of the
classifier output for yes/no questions.  Explicit yes patterns are
checked first, then explicit no patterns; with no lexical match, only a
negative model label with confidence above 0.7 is trusted, and every
other case defaults to positive. -/
def interpretYesNoSentiment (text : String) (ai : AiSentiment) : Sentiment :=
  if patTest yesPatterns text then Sentiment.positive
  else if patTest noPatterns text then Sentiment.negative
  else if ai.label = Sentiment.negative ∧ ai.score > Rat.divInt 7 10 then
    Sentiment.negative
  else Sentiment.positive

/-! ## Calendar arithmetic

The source delegates calendar handling to the moment library with the
fixed formats `DD/MM/YYYY` and `HH:mm`; this section models that
library behaviour: proleptic Gregorian dates, day counting, and
parsing/formatting of the two fixed formats (with moment's range
validation, under which an out-of-range component makes the value
invalid). -/

/-- Gregorian leap-year rule. -/
def isLeap (y : Nat) : Bool :=
  (y % 4 == 0 && y % 100 != 0) || y % 400 == 0

/-- Number of days of month `m` (1-12) in year `y`. -/
def daysInMonth (m y : Nat) : Nat :=
  if m = 2 then (if isLeap y then 29 else 28)
  else if m = 4 ∨ m = 6 ∨ m = 9 ∨ m = 11 then 30
  else 31

/-- Days of year `y` that precede the first day of month `m`. -/
def daysBeforeMonth (m y : Nat) : Nat :=
  let l := if isLeap y then 1 else 0
  match m with
  | 1 => 0
  | 2 => 31
  | 3 => 59 + l
  | 4 => 90 + l
  | 5 => 120 + l
  | 6 => 151 + l
  | 7 => 181 + l
  | 8 => 212 + l
  | 9 => 243 + l
  | 10 => 273 + l
  | 11 => 304 + l
  | 12 => 334 + l
  | _ => 0

/-- Days before January 1 of year `y`, counted from year 0. -/
def daysBeforeYear (y : Nat) : Nat :=
  365 * y + (y + 3) / 4 - (y + 99) / 100 + (y + 399) / 400

/-- Absolute day index of the calendar day `d/m/y`. -/
def totalDaysYMD (d m y : Nat) : Nat :=
  daysBeforeYear y + daysBeforeMonth m y + (d - 1)

/-- A calendar instant at minute precision, as handled by the resolver. -/
structure DateTime where
  day : Nat
  month : Nat
  year : Nat
  hour : Nat
  minute : Nat
deriving DecidableEq

/-- The instant has in-range calendar components. -/
def ValidDateTime (dt : DateTime) : Prop :=
  1 ≤ dt.month ∧ dt.month ≤ 12 ∧ 1 ≤ dt.day ∧ dt.day ≤ daysInMonth dt.month dt.year ∧
  dt.hour ≤ 23 ∧ dt.minute ≤ 59

instance (dt : DateTime) : Decidable (ValidDateTime dt) := by
  unfold ValidDateTime
  infer_instance

/-- Absolute day index of the instant's calendar day. -/
def totalDays (dt : DateTime) : Nat :=
  totalDaysYMD dt.day dt.month dt.year

/-- The instant as a count of minutes from the calendar origin; moment
difference computations in minutes reduce to differences of this
count. -/
def toMinutes (dt : DateTime) : Nat :=
  (totalDays dt * 24 + dt.hour) * 60 + dt.minute

/-- Day of week with moment's convention 0 = Sunday (year 0 began on a
Saturday in the proleptic Gregorian calendar). -/
def weekdayOf (dt : DateTime) : Nat :=
  (totalDays dt + 6) % 7

/-- The following calendar day (month and year roll over). -/
def nextDay (dt : DateTime) : DateTime :=
  if dt.day < daysInMonth dt.month dt.year then { dt with day := dt.day + 1 }
  else if dt.month < 12 then { dt with day := 1, month := dt.month + 1 }
  else { dt with day := 1, month := 1, year := dt.year + 1 }

/-- Adding `n` calendar days (moment `add(n, 'days')`). -/
def addDays (dt : DateTime) : Nat → DateTime
  | 0 => dt
  | n + 1 => addDays (nextDay dt) n

/-- The previous calendar day (moment `subtract(1, 'day')`). -/
def prevDay (dt : DateTime) : DateTime :=
  if 2 ≤ dt.day then { dt with day := dt.day - 1 }
  else if 2 ≤ dt.month then
    { dt with month := dt.month - 1, day := daysInMonth (dt.month - 1) dt.year }
  else { dt with year := dt.year - 1, month := 12, day := 31 }

/-! ## Decimal formatting and parsing of the two fixed formats -/

/-- The decimal digit character for `k < 10`. -/
def dc (k : Nat) : Char :=
  match k with
  | 0 => '0'
  | 1 => '1'
  | 2 => '2'
  | 3 => '3'
  | 4 => '4'
  | 5 => '5'
  | 6 => '6'
  | 7 => '7'
  | 8 => '8'
  | _ => '9'

/-- Numeric value of a decimal digit character. -/
def dv (c : Char) : Nat := c.toNat - 48

/-- Two zero-padded decimal digits (`padStart(2, '0')` of a value below 100). -/
def pad2 (n : Nat) : List Char := [dc (n / 10 % 10), dc (n % 10)]

/-- Four zero-padded decimal digits (moment `YYYY` for a value below 10000). -/
def pad4 (n : Nat) : List Char :=
  [dc (n / 1000 % 10), dc (n / 100 % 10), dc (n / 10 % 10), dc (n % 10)]

/-- moment `format('DD/MM/YYYY')`. -/
def formatDDMMYYYY (dt : DateTime) : String :=
  String.mk (pad2 dt.day ++ ['/'] ++ pad2 dt.month ++ ['/'] ++ pad4 dt.year)

/-- moment `format('HH:mm')`. -/
def formatHHmm (dt : DateTime) : String :=
  String.mk (pad2 dt.hour ++ [':'] ++ pad2 dt.minute)

/-- Character-level worker of `parseDate?`. -/
def parseDateList : List Char → Option (Nat × Nat × Nat)
  | [d1, d2, s1, m1, m2, s2, y1, y2, y3, y4] =>
    if d1.isDigit && d2.isDigit && m1.isDigit && m2.isDigit &&
        y1.isDigit && y2.isDigit && y3.isDigit && y4.isDigit &&
        (s1 == '/') && (s2 == '/') then
      let d := 10 * dv d1 + dv d2
      let m := 10 * dv m1 + dv m2
      let y := 1000 * dv y1 + 100 * dv y2 + 10 * dv y3 + dv y4
      if 1 ≤ m ∧ m ≤ 12 ∧ 1 ≤ d ∧ d ≤ daysInMonth m y then some (d, m, y) else none
    else none
  | _ => none

/-- Parse a `DD/MM/YYYY` date string; moment's validation makes
out-of-range day or month components invalid. -/
def parseDate? (s : String) : Option (Nat × Nat × Nat) :=
  parseDateList s.data

/-- Character-level worker of `parseTime?`. -/
def parseTimeList : List Char → Option (Nat × Nat)
  | [h1, h2, c, m1, m2] =>
    if h1.isDigit && h2.isDigit && m1.isDigit && m2.isDigit && (c == ':') then
      let h := 10 * dv h1 + dv h2
      let mi := 10 * dv m1 + dv m2
      if h ≤ 23 ∧ mi ≤ 59 then some (h, mi) else none
    else none
  | _ => none

/-- Parse an `HH:mm` time string with moment's range validation. -/
def parseTime? (s : String) : Option (Nat × Nat) :=
  parseTimeList s.data

/-- Combined parse of `moment(date + ' ' + time, 'DD/MM/YYYY HH:mm')` to a
minute count; `none` models an invalid moment. -/
def parseDateTime? (ds ts : String) : Option Nat :=
  match parseDate? ds, parseTime? ts with
  | some (d, m, y), some (h, mi) => some ((totalDaysYMD d m y * 24 + h) * 60 + mi)
  | _, _ => none

/-! ## Booking store and conflict detector -/

/-- A stored booking record (entry of the `call_schedule.json` table);
only the fields read by the conflict scan are modelled. -/
structure Booking where
  date : String
  time : String
  status : String
deriving DecidableEq

/-- The booking table: a JSON object keyed by phone number, modelled as
an association list in the object's insertion order. -/
abbrev BookingTable := List (String × Booking)

/-- Conflict report returned by `checkTimeConflict`. -/
structure ConflictResult where
  hasConflict : Bool
  conflictingPhone : Option String
  conflictingDate : Option String
  conflictingTime : Option String
  timeDifference : Option Nat
deriving DecidableEq

/-- The `{ hasConflict: false }` report. -/
def noConflict : ConflictResult := ⟨false, none, none, none, none⟩

/-- Absolute difference in minutes between two minute counts
(`Math.abs(newDateTime.diff(existingDateTime, 'minutes'))`). -/
def minutesApart (a b : Nat) : Nat := ((a : Int) - (b : Int)).natAbs

/-- A booking entry conflicts with a candidate sitting at minute count
`newM`: the entry is not the excluded number, its status is neither
cancelled nor completed, its stored date and time parse, and the
absolute distance is strictly under 15 minutes. -/
def entryConflicts (newM : Nat) (exclude : Option String) (e : String × Booking) : Bool :=
  !(exclude == some e.1) &&
  !(e.2.status == "cancelled" || e.2.status == "completed") &&
  (match parseDateTime? e.2.date e.2.time with
   | none => false
   | some m => minutesApart newM m < 15)

/-- Loop of `checkTimeConflict`: walk the table in iteration order,
skipping the excluded number, cancelled or completed rows and rows whose
stored date/time does not parse; the first row within 15 minutes is
reported. -/
def scanConflicts (newM : Nat) (exclude : Option String) : BookingTable → ConflictResult
  | [] => noConflict
  | e :: rest =>
    if exclude == some e.1 then scanConflicts newM exclude rest
    else if e.2.status == "cancelled" || e.2.status == "completed" then
      scanConflicts newM exclude rest
    else
      match parseDateTime? e.2.date e.2.time with
      | none => scanConflicts newM exclude rest
      | some m =>
        if minutesApart newM m < 15 then
          ⟨true, some e.1, some e.2.date, some e.2.time, some (minutesApart newM m)⟩
        else scanConflicts newM exclude rest

/-- `checkTimeConflict(newDate, newTime, excludePhoneNumber)` against a
given booking table: an unparseable candidate yields no conflict,
otherwise the table is scanned in iteration order. -/
def checkTimeConflict (newDate newTime : String) (exclude : Option String)
    (table : BookingTable) : ConflictResult :=
  match parseDateTime? newDate newTime with
  | none => noConflict
  | some newM => scanConflicts newM exclude table

/-- The source first checks that the schedule file exists and catches
read and JSON failures, returning no conflict in all of those cases; a
missing or unreadable table is modelled by `none`. -/
def checkTimeConflictFile (newDate newTime : String) (exclude : Option String)
    (table? : Option BookingTable) : ConflictResult :=
  match table? with
  | none => noConflict
  | some table => checkTimeConflict newDate newTime exclude table

/-- JS object update `allSchedules[phoneNumber] = v`: replace the value
in place when the key exists (object key order is preserved), append
otherwise. -/
def setEntry (table : BookingTable) (k : String) (v : Booking) : BookingTable :=
  if table.any (fun e => e.1 == k) then
    table.map (fun e => if e.1 == k then (k, v) else e)
  else table ++ [(k, v)]

/-- `saveCallSchedule(phoneNumber, scheduleData)`: store the candidate
under the sender's number with status `scheduled`. -/
def saveCallSchedule (phone : String) (date time : String) (table : BookingTable) :
    BookingTable :=
  setEntry table phone ⟨date, time, "scheduled"⟩

/-! ## Sessions, serialization and the debounced save queue -/

/-- The `CONVERSATION_STATES` enumeration. -/
inductive ConvState
  | idle
  | greeting
  | waiting_initial_response
  | asking_reason
  | asking_call_time
  | asking_date
  | asking_time
  | confirming_schedule
  | completed
  | clarifying_response
deriving DecidableEq

/-- A fully resolved schedule candidate awaiting confirmation. -/
structure PendingSchedule where
  date : String
  time : String
  formatted : String
  originalText : String
deriving DecidableEq

/-- A partially resolved candidate (date or time known, not both). -/
structure PartialSchedule where
  date : Option String
  time : Option String
  hasDate : Bool
  hasTime : Bool
  originalText : String
deriving DecidableEq

/-- In-memory session metadata counters. -/
structure Metadata where
  saveCount : Nat
  messageCount : Nat
deriving DecidableEq

/-- An in-memory session record.  Instants (`createdAt`, `lastActivity`)
are modelled as millisecond counts.  JS fields that a fresh session
leaves undefined (`partialSchedule`, `pendingSchedule`, `finalSchedule`,
`clarificationAttempts`) take their neutral defaults here. -/
structure Session where
  state : ConvState
  currentQuestion : String
  data : List (String × String)
  createdAt : Nat
  lastActivity : Nat
  waitingForFreeText : Bool
  freeTextContext : Option String
  metadata : Metadata
  partialSchedule : Option PartialSchedule
  pendingSchedule : Option PendingSchedule
  finalSchedule : Option PendingSchedule
  clarificationAttempts : Nat
deriving DecidableEq

/-- Metadata block written by `serializeSession`. -/
structure SerializedMetadata where
  saveCount : Nat
  lastSaved : Nat
deriving DecidableEq

/-- The durable form of a session produced by `serializeSession`:
exactly the fields written to `sessions.json`.  An ISO-8601 timestamp
string produced by `toISOString` determines its instant exactly and is
modelled by the instant value. -/
structure SerializedSession where
  state : ConvState
  currentQuestion : String
  data : List (String × String)
  createdAt : Nat
  lastActivity : Nat
  waitingForFreeText : Bool
  freeTextContext : Option String
  metadata : SerializedMetadata
deriving DecidableEq

/-- JS `x || null` on a nullable string: the empty string is falsy and
collapses to null. -/
def orNull (o : Option String) : Option String :=
  match o with
  | some s => if s = "" then none else some s
  | none => none

/-- `serializeSession(session)` at wall-clock instant `now`
(`new Date().toISOString()` for the `lastSaved` stamp). -/
def serializeSession (now : Nat) (s : Session) : SerializedSession :=
  { state := s.state
    currentQuestion := s.currentQuestion
    data := s.data
    createdAt := s.createdAt
    lastActivity := s.lastActivity
    waitingForFreeText := s.waitingForFreeText
    freeTextContext := orNull s.freeTextContext
    metadata := { saveCount := s.metadata.saveCount + 1, lastSaved := now } }

/-- Per-entry body of `loadSessionsFromFile`: spread of the stored
fields with the instant fields revived and the metadata block defaulted
(`messageCount` is absent from the durable form and reverts to 0); the
schedule candidates and the clarification counter are absent from the
durable form and revert to their undefined defaults. -/
def loadSession (sd : SerializedSession) : Session :=
  { state := sd.state
    currentQuestion := sd.currentQuestion
    data := sd.data
    createdAt := sd.createdAt
    lastActivity := sd.lastActivity
    waitingForFreeText := sd.waitingForFreeText
    freeTextContext := sd.freeTextContext
    metadata := { saveCount := sd.metadata.saveCount, messageCount := 0 }
    partialSchedule := none
    pendingSchedule := none
    finalSchedule := none
    clarificationAttempts := 0 }

/-- One pending-save queue entry: enqueue timestamp and reason. -/
structure SaveEntry where
  timestamp : Nat
  reason : String
deriving DecidableEq

/-- The pending-save queue (the `saveQueue` map of `SmartSessionManager`)
in insertion order; its length is the map's size. -/
abbrev SaveQueue := List (String × SaveEntry)

/-- `isCriticalEvent()`: some queued entry carries reason `state_change`
or `completion`. -/
def isCriticalEvent (q : SaveQueue) : Bool :=
  q.any fun e => e.2.reason == "state_change" || e.2.reason == "completion"

/-- `calculateDynamicDelay()` as a function of the queue size
(`maxBatchSize` is 10 and `debounceDelay` 2000 ms). -/
def calculateDynamicDelay (queueSize : Nat) : Nat :=
  if queueSize ≥ 10 then 500
  else if queueSize > 5 then 1000
  else 2000

/-- Outcome of `debounceSave()`: an immediate synchronous save, or a
timer armed with the given delay in milliseconds. -/
inductive SaveAction
  | immediate
  | delayed (ms : Nat)
deriving DecidableEq

/-- `debounceSave()`: critical events save synchronously with no timer,
every other queue state arms a timer with the dynamic delay. -/
def debounceSave (q : SaveQueue) : SaveAction :=
  if isCriticalEvent q then SaveAction.immediate
  else SaveAction.delayed (calculateDynamicDelay q.length)

/-! ## Conversation driver handlers

Session updates go through `createOrUpdateSession`, which merges the
given fields into the existing record and stamps `lastActivity` with the
current instant `now`. -/

/-- `handleInitialResponse`, given the yes/no sentiment of the reply
(the handler serving both the `GREETING` and the
`WAITING_INITIAL_RESPONSE` states). -/
def handleInitialResponse (sentiment : Sentiment) (now : Nat) (s : Session) : Session :=
  if sentiment = Sentiment.positive then
    { s with state := ConvState.asking_call_time, currentQuestion := "call_time",
             lastActivity := now }
  else if sentiment = Sentiment.negative then
    { s with state := ConvState.asking_reason, currentQuestion := "reason",
             lastActivity := now }
  else
    { s with state := ConvState.clarifying_response, currentQuestion := "clarification",
             clarificationAttempts := s.clarificationAttempts + 1, lastActivity := now }

/-- `handleClarificationResponse`: a decisive reply resets the counter
and leaves the clarification state; anything else increments the counter
and touches no other field. -/
def handleClarificationResponse (sentiment : Sentiment) (now : Nat) (s : Session) :
    Session :=
  if sentiment = Sentiment.positive then
    { s with state := ConvState.asking_call_time, currentQuestion := "call_time",
             clarificationAttempts := 0, lastActivity := now }
  else if sentiment = Sentiment.negative then
    { s with state := ConvState.asking_reason, currentQuestion := "reason",
             clarificationAttempts := 0, lastActivity := now }
  else
    { s with clarificationAttempts := s.clarificationAttempts + 1, lastActivity := now }

/-- `handleScheduleConfirmation`: on a positive reply the conflict check
is re-run for the pending candidate with the sender excluded; on
conflict the user is redirected to the date question with both schedule
candidates cleared and nothing written; otherwise the booking is written
and the session completed.  Every non-positive reply returns the user to
the call-time question with the pending candidate discarded.  A missing
pending candidate makes the positive path throw in the source; the
surrounding catch leaves session and table unchanged. -/
def handleScheduleConfirmation (sentiment : Sentiment) (phone : String) (now : Nat)
    (s : Session) (table : BookingTable) : Session × BookingTable :=
  if sentiment = Sentiment.positive then
    match s.pendingSchedule with
    | none => (s, table)
    | some p =>
      if (checkTimeConflict p.date p.time (some phone) table).hasConflict then
        ({ s with state := ConvState.asking_date, currentQuestion := "date",
                  partialSchedule := none, pendingSchedule := none,
                  lastActivity := now }, table)
      else
        ({ s with state := ConvState.completed, currentQuestion := "completed",
                  lastActivity := now },
         saveCallSchedule phone p.date p.time table)
  else
    ({ s with state := ConvState.asking_call_time, currentQuestion := "call_time",
              pendingSchedule := none, lastActivity := now }, table)

/-! ## Temporal resolver

`parseTimeExpression` first tests the text against the immediate
keyword groups, then `parseTimeWithTinyLlama` applies two independent
ordered pattern tables (first matching rule wins in each).  Rows built
from literal alternations reuse `patTest`; rows with numeric capture
groups are compiled to explicit leftmost-match scanners with the same
greedy/backtracking behaviour as the JS regexes. -/

/-- Whitespace as matched by the `\s*` gaps of the capture patterns. -/
def isSpaceChar (c : Char) : Bool :=
  c == ' ' || c == '\t' || c == '\n' || c == '\r'

/-- `.trim()` on a character list. -/
def trimChars (t : List Char) : List Char :=
  ((t.dropWhile isSpaceChar).reverse.dropWhile isSpaceChar).reverse

/-- `patTest` on an already lowercased character list. -/
def listPatTest (t : List Char) (alts : List String) : Bool :=
  alts.any fun a =>
    (List.range (t.length + 1)).any fun i => matchesWordAt t a.data i

/-- Digit value at a position, when the character there is a digit. -/
def digitValAt (t : List Char) (i : Nat) : Option Nat :=
  match t[i]? with
  | some c => if c.isDigit then some (dv c) else none
  | none => none

/-- The character at position `i` is `c`. -/
def chAt (t : List Char) (i : Nat) (c : Char) : Bool :=
  t[i]? == some c

/-- The literal occurs at position `i` (no boundary requirement). -/
def litAt (t pat : List Char) (i : Nat) : Bool :=
  (t.drop i).take pat.length == pat

/-- Greedy `\d{1,2}` at position `i`: candidate (value, next position)
pairs in backtracking order, two digits preferred. -/
def d12At (t : List Char) (i : Nat) : List (Nat × Nat) :=
  match digitValAt t i with
  | none => []
  | some a =>
    match digitValAt t (i + 1) with
    | some b => [(10 * a + b, i + 2), (a, i + 1)]
    | none => [(a, i + 1)]

/-- Greedy `\d{2,4}` at position `i`: candidate (digit characters, next
position) pairs in backtracking order, four digits preferred. -/
def d24At (t : List Char) (i : Nat) : List (List Char × Nat) :=
  match t[i]?, t[i+1]?, t[i+2]?, t[i+3]? with
  | some c1, some c2, some c3, some c4 =>
    if c1.isDigit && c2.isDigit then
      if c3.isDigit then
        if c4.isDigit then
          [([c1, c2, c3, c4], i + 4), ([c1, c2, c3], i + 3), ([c1, c2], i + 2)]
        else [([c1, c2, c3], i + 3), ([c1, c2], i + 2)]
      else [([c1, c2], i + 2)]
    else []
  | some c1, some c2, some c3, none =>
    if c1.isDigit && c2.isDigit then
      if c3.isDigit then [([c1, c2, c3], i + 3), ([c1, c2], i + 2)]
      else [([c1, c2], i + 2)]
    else []
  | some c1, some c2, none, _ =>
    if c1.isDigit && c2.isDigit then [([c1, c2], i + 2)] else []
  | _, _, _, _ => []

/-- Index after the run of whitespace starting at `i` (`\s*`, greedy;
nothing after it in these patterns can match whitespace, so greedy
consumption is exact). -/
def skipSpacesGo (t : List Char) : Nat → Nat → Nat
  | 0, i => i
  | f + 1, i =>
    match t[i]? with
    | some c => if isSpaceChar c then skipSpacesGo t f (i + 1) else i
    | none => i

/-- Index after the whitespace run starting at `i`. -/
def skipSpaces (t : List Char) (i : Nat) : Nat :=
  skipSpacesGo t t.length i

/-- Leftmost application: the first position at which `f` produces a
match, scanning left to right as a JS `match` does. -/
def firstScan (t : List Char) (f : Nat → Option α) : Option α :=
  (List.range (t.length + 1)).findSome? f

/-- Positions after the optional ordinal suffix `(st|nd|rd|th)?` at `j`,
in backtracking order (with the suffix preferred). -/
def ordCandidates (t : List Char) (j : Nat) : List Nat :=
  if litAt t ['s', 't'] j || litAt t ['n', 'd'] j || litAt t ['r', 'd'] j ||
      litAt t ['t', 'h'] j then
    [j + 2, j]
  else [j]

/-- Match of `/\b(\d{1,2}):(\d{2})\s*(am|pm)\b/` at position `i`:
(hour capture, minute capture, pm flag). -/
def time12ColonAt (t : List Char) (i : Nat) : Option (Nat × Nat × Bool) :=
  if boundaryAt t i then
    (d12At t i).findSome? fun hc =>
      if chAt t hc.2 ':' then
        match digitValAt t (hc.2 + 1), digitValAt t (hc.2 + 2) with
        | some m1, some m2 =>
          let k := skipSpaces t (hc.2 + 3)
          if litAt t ['a', 'm'] k && boundaryAt t (k + 2) then
            some (hc.1, 10 * m1 + m2, false)
          else if litAt t ['p', 'm'] k && boundaryAt t (k + 2) then
            some (hc.1, 10 * m1 + m2, true)
          else none
        | _, _ => none
      else none
  else none

/-- Match of `/\b(\d{1,2})\s*(am|pm)\b/` at position `i`:
(hour capture, pm flag). -/
def time12HourAt (t : List Char) (i : Nat) : Option (Nat × Bool) :=
  if boundaryAt t i then
    (d12At t i).findSome? fun hc =>
      let k := skipSpaces t hc.2
      if litAt t ['a', 'm'] k && boundaryAt t (k + 2) then some (hc.1, false)
      else if litAt t ['p', 'm'] k && boundaryAt t (k + 2) then some (hc.1, true)
      else none
  else none

/-- Match of `/\b(\d{1,2}):(\d{2})\b/` at position `i`:
(hour capture, minute capture). -/
def time24At (t : List Char) (i : Nat) : Option (Nat × Nat) :=
  if boundaryAt t i then
    (d12At t i).findSome? fun hc =>
      if chAt t hc.2 ':' then
        match digitValAt t (hc.2 + 1), digitValAt t (hc.2 + 2) with
        | some m1, some m2 =>
          if boundaryAt t (hc.2 + 3) then some (hc.1, 10 * m1 + m2) else none
        | _, _ => none
      else none
  else none

/-- Match of `/\b(\d{1,2})(st|nd|rd|th)?\s*(name1|name2)\b/` at `i`:
the day capture. -/
def monthDayAt (names : List String) (t : List Char) (i : Nat) : Option Nat :=
  if boundaryAt t i then
    (d12At t i).findSome? fun dcap =>
      (ordCandidates t dcap.2).findSome? fun k =>
        let k2 := skipSpaces t k
        if names.any (fun nm => litAt t nm.data k2 && boundaryAt t (k2 + nm.data.length))
        then some dcap.1
        else none
  else none

/-- Match of `/\b(\d{1,2})[\/\-](\d{1,2})[\/\-](\d{2,4})\b/` at `i`:
(day capture, month capture, raw year digit characters). -/
def numDateAt (t : List Char) (i : Nat) : Option (Nat × Nat × List Char) :=
  if boundaryAt t i then
    (d12At t i).findSome? fun dcap =>
      if chAt t dcap.2 '/' || chAt t dcap.2 '-' then
        (d12At t (dcap.2 + 1)).findSome? fun mcap =>
          if chAt t mcap.2 '/' || chAt t mcap.2 '-' then
            (d24At t (mcap.2 + 1)).findSome? fun ycap =>
              if boundaryAt t ycap.2 then some (dcap.1, mcap.1, ycap.1) else none
          else none
      else none
  else none

/-- Match of `/\b(\d{1,2})(st|nd|rd|th)?\b/` at `i`: the day capture. -/
def bareDayAt (t : List Char) (i : Nat) : Option Nat :=
  if boundaryAt t i then
    (d12At t i).findSome? fun dcap =>
      (ordCandidates t dcap.2).findSome? fun k =>
        if boundaryAt t k then some dcap.1 else none
  else none

/-- Decimal digit characters of `n` without padding
(`toString()` of a number). -/
def natDigitsGo : Nat → Nat → List Char
  | 0, _ => []
  | f + 1, n => if n < 10 then [dc n] else natDigitsGo f (n / 10) ++ [dc (n % 10)]

/-- Decimal digit characters of `n`. -/
def natDigits (n : Nat) : List Char := natDigitsGo (n + 1) n

/-- `toString().padStart(2, '0')` of a number. -/
def padStart2 (n : Nat) : List Char :=
  if n < 10 then '0' :: natDigits n else natDigits n

/-- `botUtils.formatDate(day, month, year)`: padded day and month, year
as written. -/
def formatDateDMY (day month year : Nat) : String :=
  String.mk (padStart2 day ++ ['/'] ++ padStart2 month ++ ['/'] ++ natDigits year)

/-- 12-hour to 24-hour conversion used by both 12-hour rows
(`pm` adds 12 except for 12 pm; 12 am becomes 0). -/
def hour12to24 (h : Nat) (pm : Bool) : Nat :=
  if pm && !(h == 12) then h + 12
  else if !pm && h == 12 then 0
  else h

/-- `getNextWeekday(now, targetDay)`: days until the next occurrence of
the requested weekday, rolling a full week forward when the difference
is zero or negative. -/
def getNextWeekday (now : DateTime) (targetDay : Nat) : String :=
  let currentDay : Int := weekdayOf now
  let d0 : Int := (targetDay : Int) - currentDay
  let d1 : Int := if d0 ≤ 0 then d0 + 7 else d0
  formatDDMMYYYY (addDays now d1.toNat)

/-- A literal-alternation row of a pattern table: produce `res` when the
row's regex matches. -/
def litRow (alts : List String) (t : List Char) (res : String) : Option String :=
  if listPatTest t alts then some res else none

/-- A month row: day capture formatted with the fixed month number and
the reference year. -/
def monthRow (names : List String) (mNum : Nat) (t : List Char) (now : DateTime) :
    Option String :=
  (firstScan t (monthDayAt names t)).map fun d => formatDateDMY d mNum now.year

/-- Handler of the numeric-date row: two-digit years are promoted to the
2000s, day and month are zero-padded. -/
def numDateFormat (r : Nat × Nat × List Char) : String :=
  String.mk (padStart2 r.1 ++ ['/'] ++ padStart2 r.2.1 ++ ['/'] ++
    (if r.2.2.length = 2 then '2' :: '0' :: r.2.2 else r.2.2))

/-- The ordered date-pattern table of `parseTimeWithTinyLlama` (first
matching row wins; a row whose handler yields nothing lets the scan
continue). -/
def parseDateText (t : List Char) (now : DateTime) : Option String :=
  [litRow ["yesterday", "yest"] t (formatDDMMYYYY (prevDay now)),
   litRow ["today", "tod"] t (formatDDMMYYYY now),
   litRow ["tomorrow", "tmrw", "tom"] t (formatDDMMYYYY (nextDay now)),
   litRow ["day after tomorrow", "overmorrow"] t (formatDDMMYYYY (addDays now 2)),
   litRow ["monday", "mon"] t (getNextWeekday now 1),
   litRow ["tuesday", "tue", "tues"] t (getNextWeekday now 2),
   litRow ["wednesday", "wed"] t (getNextWeekday now 3),
   litRow ["thursday", "thu", "thurs"] t (getNextWeekday now 4),
   litRow ["friday", "fri"] t (getNextWeekday now 5),
   litRow ["saturday", "sat"] t (getNextWeekday now 6),
   litRow ["sunday", "sun"] t (getNextWeekday now 0),
   monthRow ["jan", "january"] 1 t now,
   monthRow ["feb", "february"] 2 t now,
   monthRow ["mar", "march"] 3 t now,
   monthRow ["apr", "april"] 4 t now,
   monthRow ["may"] 5 t now,
   monthRow ["jun", "june"] 6 t now,
   monthRow ["jul", "july"] 7 t now,
   monthRow ["aug", "august"] 8 t now,
   monthRow ["sep", "september"] 9 t now,
   monthRow ["oct", "october"] 10 t now,
   monthRow ["nov", "november"] 11 t now,
   monthRow ["dec", "december"] 12 t now,
   (firstScan t (numDateAt t)).map numDateFormat,
   (firstScan t (bareDayAt t)).bind fun d =>
     if 1 ≤ d ∧ d ≤ 31 then some (formatDateDMY d now.month now.year) else none
  ].findSome? id

/-- `HH:mm` of the reference instant shifted forward by `k` minutes
(a moment `add(k, 'minutes').format('HH:mm')`, which wraps within the
day for the formatted part). -/
def offsetHHmm (now : DateTime) (k : Nat) : String :=
  let q := (now.hour * 60 + now.minute + k) % 1440
  String.mk (pad2 (q / 60) ++ [':'] ++ pad2 (q % 60))

/-- Handler of the business-hours row: clamp to 09:00 before opening,
to the next day's 09:00 after closing (only the clock part is kept), the
current time otherwise. -/
def bizHoursTime (now : DateTime) : String :=
  if now.hour < 9 then String.mk (pad2 9 ++ [':'] ++ pad2 0)
  else if 17 ≤ now.hour then String.mk (pad2 9 ++ [':'] ++ pad2 0)
  else formatHHmm now

/-- The ordered time-pattern table of `parseTimeWithTinyLlama`. -/
def parseTimeText (t : List Char) (now : DateTime) : Option String :=
  [(firstScan t (time12ColonAt t)).map (fun r =>
     String.mk (padStart2 (hour12to24 r.1 r.2.2) ++ [':'] ++ pad2 r.2.1)),
   (firstScan t (time12HourAt t)).map (fun r =>
     String.mk (padStart2 (hour12to24 r.1 r.2) ++ [':'] ++ ['0', '0'])),
   (firstScan t (time24At t)).bind (fun r =>
     if r.1 ≤ 23 then some (String.mk (padStart2 r.1 ++ [':'] ++ pad2 r.2)) else none),
   litRow ["morning", "morn"] t "09:00",
   litRow ["afternoon", "noon"] t "14:00",
   litRow ["evening", "eve"] t "18:00",
   litRow ["night", "nite"] t "20:00",
   litRow ["midnight"] t "00:00",
   litRow ["lunch", "lunchtime"] t "12:30",
   litRow ["dinner", "dinnertime"] t "19:00",
   litRow ["breakfast"] t "08:00",
   litRow ["now", "right now", "just now", "at this moment", "this instant",
     "this second", "this minute"] t (formatHHmm now),
   litRow ["asap", "a.s.a.p.", "as soon as possible", "immediately", "instantly",
     "urgently", "straight away", "right away", "at once"] t (formatHHmm now),
   litRow ["pronto", "stat", "quick", "quickly", "fast", "rapid", "swift",
     "prompt", "without delay", "no delay"] t (formatHHmm now),
   litRow ["current time", "present time", "this time", "at this time",
     "the time now", "time right now"] t (formatHHmm now),
   litRow ["in a sec", "in a second", "in seconds", "in a moment",
     "in just a moment", "in a jiffy", "in a flash", "in no time"] t
     (offsetHHmm now 1),
   litRow ["in a few minutes", "in a minute", "in 2 minutes", "in two minutes",
     "in 3 minutes", "in three minutes", "in 4 minutes", "in four minutes",
     "in 5 minutes", "in five minutes", "shortly", "very soon", "real soon",
     "soon"] t (offsetHHmm now 5),
   litRow ["in 10 minutes", "in ten minutes", "in 6 minutes", "in six minutes",
     "in 7 minutes", "in seven minutes", "in 8 minutes", "in eight minutes",
     "in 9 minutes", "in nine minutes"] t (offsetHHmm now 10),
   litRow ["in 15 minutes", "in fifteen minutes", "in a quarter hour",
     "in quarter of an hour", "in 11 minutes", "in eleven minutes",
     "in 12 minutes", "in twelve minutes", "in 13 minutes",
     "in thirteen minutes", "in 14 minutes", "in fourteen minutes"] t
     (offsetHHmm now 15),
   litRow ["in 20 minutes", "in twenty minutes", "in 16 minutes",
     "in sixteen minutes", "in 17 minutes", "in seventeen minutes",
     "in 18 minutes", "in eighteen minutes", "in 19 minutes",
     "in nineteen minutes"] t (offsetHHmm now 20),
   litRow ["in 30 minutes", "in thirty minutes", "in half an hour",
     "in a half hour", "in 25 minutes", "in twenty five minutes",
     "in 26 minutes", "in twenty six minutes", "in 27 minutes",
     "in twenty seven minutes", "in 28 minutes", "in twenty eight minutes",
     "in 29 minutes", "in twenty nine minutes"] t (offsetHHmm now 30),
   litRow ["in 45 minutes", "in forty five minutes",
     "in three quarters of an hour", "in 40 minutes", "in forty minutes",
     "in 41 minutes", "in forty one minutes", "in 42 minutes",
     "in forty two minutes", "in 43 minutes", "in forty three minutes",
     "in 44 minutes", "in forty four minutes"] t (offsetHHmm now 45),
   litRow ["in an hour", "in 1 hour", "in one hour", "in 60 minutes",
     "in sixty minutes", "in 50 minutes", "in fifty minutes", "in 55 minutes",
     "in fifty five minutes"] t (offsetHHmm now 60),
   litRow ["in an hour and a half", "in 1.5 hours", "in one and a half hours",
     "in 90 minutes", "in ninety minutes"] t (offsetHHmm now 90),
   litRow ["in 2 hours", "in two hours", "in a couple hours",
     "in a couple of hours", "in 120 minutes",
     "in one hundred twenty minutes"] t (offsetHHmm now 120),
   litRow ["whenever", "anytime", "any time", "when you can", "when possible",
     "when convenient", "at your convenience"] t (offsetHHmm now 30),
   litRow ["during business hours", "in office hours", "during work hours",
     "during working hours"] t (bizHoursTime now),
   litRow ["rn", "rt now", "rite now", "nao", "naow", "rightnow", "asap pls",
     "asap please", "call me now", "call now", "ring now", "phone now"] t
     (formatHHmm now),
   litRow ["maintenant", "ahora", "jetzt", "ora", "agora", "sekarang", "지금",
     "今", "сейчас", "الآن"] t (formatHHmm now),
   litRow ["rn pls", "asap af", "like now", "literally now", "actually now",
     "seriously now", "for real now", "no joke now"] t (formatHHmm now),
   litRow ["before it" ++ aps ++ "s too late", "time sensitive", "urgent call",
     "emergency call", "critical call", "important call now"] t
     (formatHHmm now),
   litRow ["while i" ++ aps ++ "m free", "while i have time",
     "before i forget", "before i get busy", "while i remember"] t
     (offsetHHmm now 5)
  ].findSome? id

/-- The object shape returned by the resolver functions; JS fields a
branch leaves undefined are `false` or `none` here.  The JS field
called `partial` is `partialResult`. -/
structure ParseResult where
  success : Bool
  date : Option String
  time : Option String
  hasDate : Bool
  hasTime : Bool
  formatted : Option String
  complete : Bool
  immediate : Bool
  partialResult : Bool
  needsDate : Bool
  needsTime : Bool
deriving DecidableEq

/-- `parseTimeWithTinyLlama(text, currentDateTime)`: both pattern tables
are applied independently to the lowercased, trimmed text. -/
def parseTimeWithTinyLlama (text : String) (now : DateTime) : ParseResult :=
  let t := trimChars (text.data.map Char.toLower)
  let pd := parseDateText t now
  let pt := parseTimeText t now
  { success := true
    date := pd
    time := pt
    hasDate := pd.isSome
    hasTime := pt.isSome
    formatted :=
      match pd, pt with
      | some d, some tm => some (d ++ "::" ++ tm)
      | _, _ => none
    complete := false
    immediate := false
    partialResult := pd.isSome != pt.isSome
    needsDate := !pd.isSome
    needsTime := !pt.isSome }

/-- The nine immediate-keyword pattern groups tested first by
`parseTimeExpression`. -/
def immediateKeywords : List (List String) :=
  [["now", "right now", "just now", "at this moment", "this instant",
    "this second", "this minute"],
   ["asap", "a.s.a.p.", "as soon as possible", "immediately", "instantly",
    "urgently", "straight away", "right away", "at once"],
   ["pronto", "stat", "quick", "quickly", "fast", "rapid", "swift", "prompt",
    "without delay", "no delay"],
   ["current time", "present time", "this time", "at this time",
    "the time now", "time right now"],
   ["in a sec", "in a second", "in seconds", "in a moment", "in just a moment",
    "in a jiffy", "in a flash", "in no time"],
   ["rn", "rt now", "rite now", "nao", "naow", "rightnow", "asap pls",
    "asap please", "call me now", "call now", "ring now", "phone now"],
   ["maintenant", "ahora", "jetzt", "ora", "agora", "sekarang", "지금", "今",
    "сейчас", "الآن"],
   ["rn pls", "asap af", "like now", "literally now", "actually now",
    "seriously now", "for real now", "no joke now"],
   ["before it" ++ aps ++ "s too late", "time sensitive", "urgent call",
    "emergency call", "critical call", "important call now"]]

/-- `immediateKeywords.some(pattern => pattern.test(lowerText))`. -/
def isImmediateText (text : String) : Bool :=
  immediateKeywords.any fun g => patTest g text

/-- `parseTimeExpression(text, currentDateTime)`: the immediate branch
answers with the reference instant's own date and time and the
`immediate` flag; otherwise the table results are repackaged as a
complete or a partial answer. -/
def parseTimeExpression (text : String) (now : DateTime) : ParseResult :=
  if isImmediateText text then
    { success := true
      date := some (formatDDMMYYYY now)
      time := some (formatHHmm now)
      hasDate := true
      hasTime := true
      formatted := some (formatDDMMYYYY now ++ "::" ++ formatHHmm now)
      complete := true
      immediate := true
      partialResult := false
      needsDate := false
      needsTime := false }
  else
    let r := parseTimeWithTinyLlama text now
    if r.hasDate && r.hasTime then
      { r with complete := true, partialResult := false,
               needsDate := false, needsTime := false }
    else
      { r with complete := false, partialResult := true }

/-- The immediate-keyword regex of `isDateTimeInPast` (a smaller set than
the one of `parseTimeExpression`). -/
def pastImmediateAlts : List String :=
  ["now", "right now", "immediately", "asap", "as soon as possible",
   "straight away", "right away", "this instant", "this moment", "at once",
   "instantly"]

/-- `isDateTimeInPast(date, time, currentDateTime, originalText)`: texts
matching the immediate set are never in the past; otherwise the
candidate is in the past exactly when its combined date and time sit
strictly before the reference instant minus the one-minute grace buffer
(an unparseable candidate compares as not in the past, as an invalid
moment does). -/
def isDateTimeInPast (date time : String) (now : DateTime) (originalText : String) :
    Bool :=
  if patTest pastImmediateAlts originalText then false
  else
    match parseDateTime? date time with
    | none => false
    | some target => decide ((target : Int) < (toMinutes now : Int) - 1)

/-- A pending-save queue of five distinct identifiers, none carrying a
critical reason. -/
def pendingFive : SaveQueue :=
  [("a@c.us", ⟨0, "activity"⟩), ("b@c.us", ⟨1, "message"⟩),
   ("c@c.us", ⟨2, "data_update"⟩), ("d@c.us", ⟨3, "question_change"⟩),
   ("e@c.us", ⟨4, "milestone"⟩)]

/-! ## Supporting lemmas about the calendar model -/

theorem dv_dc (k : Nat) (h : k < 10) : dv (dc k) = k := by
  interval_cases k <;> rfl

theorem isDigit_dc (k : Nat) (h : k < 10) : (dc k).isDigit = true := by
  interval_cases k <;> rfl

theorem daysInMonth_le (m y : Nat) : daysInMonth m y ≤ 31 := by
  unfold daysInMonth
  split_ifs <;> omega

theorem daysInMonth_pos (m y : Nat) : 1 ≤ daysInMonth m y := by
  unfold daysInMonth
  split_ifs <;> omega

theorem isLeap_iff (y : Nat) :
    isLeap y = true ↔ (y % 4 = 0 ∧ ¬ y % 100 = 0) ∨ y % 400 = 0 := by
  unfold isLeap
  simp [Bool.or_eq_true, Bool.and_eq_true, beq_iff_eq, bne_iff_ne]

set_option maxHeartbeats 1000000 in
theorem daysBeforeYear_succ (y : Nat) :
    daysBeforeYear (y + 1) = daysBeforeYear y + (if isLeap y then 366 else 365) := by
  by_cases h : isLeap y = true
  · rw [if_pos h]
    rw [isLeap_iff] at h
    unfold daysBeforeYear
    omega
  · rw [if_neg h]
    rw [isLeap_iff] at h
    unfold daysBeforeYear
    omega

theorem daysBeforeMonth_succ (m y : Nat) (h1 : 1 ≤ m) (h2 : m ≤ 11) :
    daysBeforeMonth (m + 1) y = daysBeforeMonth m y + daysInMonth m y := by
  interval_cases m <;> by_cases h : isLeap y = true <;>
    simp [daysBeforeMonth, daysInMonth, h]

theorem totalDays_nextDay (dt : DateTime) (h : ValidDateTime dt) :
    totalDays (nextDay dt) = totalDays dt + 1 := by
  obtain ⟨hm1, hm2, hd1, hd2, _, _⟩ := h
  unfold nextDay
  by_cases hlt : dt.day < daysInMonth dt.month dt.year
  · rw [if_pos hlt]
    unfold totalDays totalDaysYMD
    simp only
    omega
  · rw [if_neg hlt]
    have hde : dt.day = daysInMonth dt.month dt.year := le_antisymm hd2 (not_lt.mp hlt)
    by_cases hm : dt.month < 12
    · rw [if_pos hm]
      unfold totalDays totalDaysYMD
      simp only
      rw [daysBeforeMonth_succ dt.month dt.year hm1 (by omega)]
      omega
    · rw [if_neg hm]
      have hm12 : dt.month = 12 := by omega
      unfold totalDays totalDaysYMD
      simp only
      rw [hm12] at hde ⊢
      rw [daysBeforeYear_succ]
      have e1 : daysBeforeMonth 12 dt.year = 334 + (if isLeap dt.year then 1 else 0) := by
        simp [daysBeforeMonth]
      have e2 : daysInMonth 12 dt.year = 31 := by simp [daysInMonth]
      have e3 : daysBeforeMonth 1 (dt.year + 1) = 0 := by simp [daysBeforeMonth]
      rw [e2] at hde
      rw [e1, e3]
      by_cases hl : isLeap dt.year = true <;> simp [hl] <;> omega

theorem nextDay_year (dt : DateTime) : (nextDay dt).year ≤ dt.year + 1 := by
  unfold nextDay
  split_ifs <;> simp

theorem valid_nextDay (dt : DateTime) (h : ValidDateTime dt) :
    ValidDateTime (nextDay dt) := by
  obtain ⟨hm1, hm2, hd1, hd2, hh, hmi⟩ := h
  unfold nextDay ValidDateTime
  by_cases hlt : dt.day < daysInMonth dt.month dt.year
  · rw [if_pos hlt]
    simp only
    omega
  · rw [if_neg hlt]
    by_cases hm : dt.month < 12
    · rw [if_pos hm]
      simp only
      have := daysInMonth_pos (dt.month + 1) dt.year
      omega
    · rw [if_neg hm]
      simp only
      have : daysInMonth 1 (dt.year + 1) = 31 := by simp [daysInMonth]
      omega

theorem valid_addDays (dt : DateTime) (n : Nat) (h : ValidDateTime dt) :
    ValidDateTime (addDays dt n) := by
  induction n generalizing dt with
  | zero => exact h
  | succ k ih => exact ih (nextDay dt) (valid_nextDay dt h)

theorem totalDays_addDays (dt : DateTime) (n : Nat) (h : ValidDateTime dt) :
    totalDays (addDays dt n) = totalDays dt + n := by
  induction n generalizing dt with
  | zero => rfl
  | succ k ih =>
    have := ih (nextDay dt) (valid_nextDay dt h)
    unfold addDays
    rw [this, totalDays_nextDay dt h]
    omega

theorem year_addDays (dt : DateTime) (n : Nat) :
    (addDays dt n).year ≤ dt.year + n := by
  induction n generalizing dt with
  | zero => simp [addDays]
  | succ k ih =>
    unfold addDays
    have h1 := ih (nextDay dt)
    have h2 := nextDay_year dt
    omega

theorem data_mk (l : List Char) : (String.mk l).data = l := rfl

theorem parseDate?_format (dt : DateTime) (h : ValidDateTime dt) (hy : dt.year ≤ 9999) :
    parseDate? (formatDDMMYYYY dt) = some (dt.day, dt.month, dt.year) := by
  obtain ⟨hm1, hm2, hd1, hd2, hh, hmi⟩ := h
  have hd100 : dt.day < 100 := by
    have := daysInMonth_le dt.month dt.year
    omega
  have hm100 : dt.month < 100 := by omega
  have c1 := isDigit_dc (dt.day / 10 % 10) (Nat.mod_lt _ (by norm_num))
  have c2 := isDigit_dc (dt.day % 10) (Nat.mod_lt _ (by norm_num))
  have c3 := isDigit_dc (dt.month / 10 % 10) (Nat.mod_lt _ (by norm_num))
  have c4 := isDigit_dc (dt.month % 10) (Nat.mod_lt _ (by norm_num))
  have c5 := isDigit_dc (dt.year / 1000 % 10) (Nat.mod_lt _ (by norm_num))
  have c6 := isDigit_dc (dt.year / 100 % 10) (Nat.mod_lt _ (by norm_num))
  have c7 := isDigit_dc (dt.year / 10 % 10) (Nat.mod_lt _ (by norm_num))
  have c8 := isDigit_dc (dt.year % 10) (Nat.mod_lt _ (by norm_num))
  have v1 := dv_dc (dt.day / 10 % 10) (Nat.mod_lt _ (by norm_num))
  have v2 := dv_dc (dt.day % 10) (Nat.mod_lt _ (by norm_num))
  have v3 := dv_dc (dt.month / 10 % 10) (Nat.mod_lt _ (by norm_num))
  have v4 := dv_dc (dt.month % 10) (Nat.mod_lt _ (by norm_num))
  have v5 := dv_dc (dt.year / 1000 % 10) (Nat.mod_lt _ (by norm_num))
  have v6 := dv_dc (dt.year / 100 % 10) (Nat.mod_lt _ (by norm_num))
  have v7 := dv_dc (dt.year / 10 % 10) (Nat.mod_lt _ (by norm_num))
  have v8 := dv_dc (dt.year % 10) (Nat.mod_lt _ (by norm_num))
  have ed : 10 * (dt.day / 10 % 10) + dt.day % 10 = dt.day := by omega
  have em : 10 * (dt.month / 10 % 10) + dt.month % 10 = dt.month := by omega
  have ey : 1000 * (dt.year / 1000 % 10) + 100 * (dt.year / 100 % 10) +
      10 * (dt.year / 10 % 10) + dt.year % 10 = dt.year := by omega
  unfold parseDate? formatDDMMYYYY pad2 pad4
  rw [data_mk]
  simp only [List.cons_append, List.nil_append]
  unfold parseDateList
  simp only [c1, c2, c3, c4, c5, c6, c7, c8, Bool.and_self, Bool.true_and, beq_self_eq_true,
    Bool.and_true, if_true]
  simp only [v1, v2, v3, v4, v5, v6, v7, v8]
  rw [ed, em, ey]
  rw [if_pos ⟨hm1, hm2, hd1, hd2⟩]

theorem parseTime?_format (dt : DateTime) (h : ValidDateTime dt) :
    parseTime? (formatHHmm dt) = some (dt.hour, dt.minute) := by
  obtain ⟨hm1, hm2, hd1, hd2, hh, hmi⟩ := h
  have c1 := isDigit_dc (dt.hour / 10 % 10) (Nat.mod_lt _ (by norm_num))
  have c2 := isDigit_dc (dt.hour % 10) (Nat.mod_lt _ (by norm_num))
  have c3 := isDigit_dc (dt.minute / 10 % 10) (Nat.mod_lt _ (by norm_num))
  have c4 := isDigit_dc (dt.minute % 10) (Nat.mod_lt _ (by norm_num))
  have v1 := dv_dc (dt.hour / 10 % 10) (Nat.mod_lt _ (by norm_num))
  have v2 := dv_dc (dt.hour % 10) (Nat.mod_lt _ (by norm_num))
  have v3 := dv_dc (dt.minute / 10 % 10) (Nat.mod_lt _ (by norm_num))
  have v4 := dv_dc (dt.minute % 10) (Nat.mod_lt _ (by norm_num))
  have eh : 10 * (dt.hour / 10 % 10) + dt.hour % 10 = dt.hour := by omega
  have emi : 10 * (dt.minute / 10 % 10) + dt.minute % 10 = dt.minute := by omega
  unfold parseTime? formatHHmm pad2
  rw [data_mk]
  simp only [List.cons_append, List.nil_append]
  unfold parseTimeList
  simp only [c1, c2, c3, c4, Bool.and_self, Bool.true_and, beq_self_eq_true,
    Bool.and_true, if_true]
  simp only [v1, v2, v3, v4]
  rw [eh, emi]
  rw [if_pos ⟨hh, hmi⟩]

theorem parseDateTime?_format (dt : DateTime) (h : ValidDateTime dt) (hy : dt.year ≤ 9999) :
    parseDateTime? (formatDDMMYYYY dt) (formatHHmm dt) = some (toMinutes dt) := by
  unfold parseDateTime?
  rw [parseDate?_format dt h hy, parseTime?_format dt h]
  rfl

/-! ## Supporting lemmas about the conflict scan -/

theorem entryConflicts_iff (newM : Nat) (ex : Option String) (e : String × Booking) :
    entryConflicts newM ex e = true ↔
      ex ≠ some e.1 ∧ e.2.status ≠ "cancelled" ∧ e.2.status ≠ "completed" ∧
      ∃ mb, parseDateTime? e.2.date e.2.time = some mb ∧ minutesApart newM mb < 15 := by
  unfold entryConflicts
  cases hp : parseDateTime? e.2.date e.2.time with
  | none =>
    simp [hp]
  | some mb =>
    simp [hp, Bool.and_eq_true, Bool.not_eq_true', beq_eq_false_iff_ne, Bool.or_eq_true,
      beq_iff_eq, not_or, and_assoc]

theorem scanConflicts_hasConflict (newM : Nat) (ex : Option String) (table : BookingTable) :
    (scanConflicts newM ex table).hasConflict =
      (table.find? (entryConflicts newM ex)).isSome := by
  induction table with
  | nil => rfl
  | cons e rest ih =>
    unfold scanConflicts
    by_cases h1 : (ex == some e.1) = true
    · rw [if_pos h1]
      have he : entryConflicts newM ex e = false := by
        unfold entryConflicts
        rw [h1]
        rfl
      rw [List.find?_cons_of_neg _ (by simp [he]), ih]
    · rw [if_neg h1]
      by_cases h2 : (e.2.status == "cancelled" || e.2.status == "completed") = true
      · rw [if_pos h2]
        have he : entryConflicts newM ex e = false := by
          unfold entryConflicts
          rw [h2]
          simp [Bool.eq_false_iff.mp (Bool.not_eq_true _ ▸ h1)]
        rw [List.find?_cons_of_neg _ (by simp [he]), ih]
      · rw [if_neg h2]
        cases hp : parseDateTime? e.2.date e.2.time with
        | none =>
          have he : entryConflicts newM ex e = false := by
            unfold entryConflicts
            rw [hp]
            simp
          rw [List.find?_cons_of_neg _ (by simp [he]), ih]
        | some m =>
          by_cases hd : minutesApart newM m < 15
          · have he : entryConflicts newM ex e = true := by
              unfold entryConflicts
              rw [hp]
              simp [h1, h2, hd]
            rw [List.find?_cons_of_pos _ he]
            simp [hd]
          · have he : entryConflicts newM ex e = false := by
              unfold entryConflicts
              rw [hp]
              simp [hd]
            rw [List.find?_cons_of_neg _ (by simp [he])]
            simpa [hd] using ih

theorem scanConflicts_phone (newM : Nat) (ex : Option String) (table : BookingTable) :
    (scanConflicts newM ex table).conflictingPhone =
      (table.find? (entryConflicts newM ex)).map Prod.fst := by
  induction table with
  | nil => rfl
  | cons e rest ih =>
    unfold scanConflicts
    by_cases h1 : (ex == some e.1) = true
    · rw [if_pos h1]
      have he : entryConflicts newM ex e = false := by
        unfold entryConflicts
        rw [h1]
        rfl
      rw [List.find?_cons_of_neg _ (by simp [he]), ih]
    · rw [if_neg h1]
      by_cases h2 : (e.2.status == "cancelled" || e.2.status == "completed") = true
      · rw [if_pos h2]
        have he : entryConflicts newM ex e = false := by
          unfold entryConflicts
          rw [h2]
          simp [Bool.eq_false_iff.mp (Bool.not_eq_true _ ▸ h1)]
        rw [List.find?_cons_of_neg _ (by simp [he]), ih]
      · rw [if_neg h2]
        cases hp : parseDateTime? e.2.date e.2.time with
        | none =>
          have he : entryConflicts newM ex e = false := by
            unfold entryConflicts
            rw [hp]
            simp
          rw [List.find?_cons_of_neg _ (by simp [he]), ih]
        | some m =>
          by_cases hd : minutesApart newM m < 15
          · have he : entryConflicts newM ex e = true := by
              unfold entryConflicts
              rw [hp]
              simp [h1, h2, hd]
            rw [List.find?_cons_of_pos _ he]
            simp [hd]
          · have he : entryConflicts newM ex e = false := by
              unfold entryConflicts
              rw [hp]
              simp [hd]
            rw [List.find?_cons_of_neg _ (by simp [he])]
            simpa [hd] using ih

theorem getNextWeekday_spec (now : DateTime) (target : Nat) (ht : target < 7) :
    ∃ k : Nat, 1 ≤ k ∧ k ≤ 7 ∧
      getNextWeekday now target = formatDDMMYYYY (addDays now k) ∧
      (weekdayOf now + k) % 7 = target ∧
      (k = 7 ↔ target = weekdayOf now) := by
  have hw : weekdayOf now < 7 := by
    unfold weekdayOf
    omega
  simp only [getNextWeekday]
  by_cases hc : (target : Int) - (weekdayOf now : Int) ≤ 0
  · refine ⟨((target : Int) - (weekdayOf now : Int) + 7).toNat,
      by omega, by omega, ?_, by omega, by omega⟩
    rw [if_pos hc]
  · refine ⟨((target : Int) - (weekdayOf now : Int)).toNat,
      by omega, by omega, ?_, by omega, by omega⟩
    rw [if_neg hc]

/-! ## The claims -/

/-- Claim C1, counterexample.  The claim states that a text matching the
explicit no pattern is classified negative; the text `"not interested"`
matches the no pattern, yet the classifier answers positive (the word
`interested` makes the yes pattern, which is checked first, match as
well), even with a fully confident negative model output. -/
theorem claim_C1_counterexample :
    patTest noPatterns "not interested" = true ∧
    interpretYesNoSentiment "not interested" ⟨Sentiment.negative, 1⟩ = Sentiment.positive := by
  constructor
  · decide
  · decide

/-- Claim C1, amended.  For yes/no questions the explicit yes pattern is
checked first and wins outright; only a text matching no explicit
pattern at all falls through to the model, where exactly a negative
label above confidence 0.7 yields negative and every other output
defaults to positive. -/
theorem claim_C1 (text : String) (ai : AiSentiment) :
    (patTest yesPatterns text = true →
      interpretYesNoSentiment text ai = Sentiment.positive) ∧
    (patTest yesPatterns text = false → patTest noPatterns text = true →
      interpretYesNoSentiment text ai = Sentiment.negative) ∧
    (patTest yesPatterns text = false → patTest noPatterns text = false →
      ((interpretYesNoSentiment text ai = Sentiment.negative ↔
        (ai.label = Sentiment.negative ∧ ai.score > Rat.divInt 7 10)) ∧
       (¬(ai.label = Sentiment.negative ∧ ai.score > Rat.divInt 7 10) →
        interpretYesNoSentiment text ai = Sentiment.positive))) := by
  refine ⟨?_, ?_, ?_⟩
  · intro h
    unfold interpretYesNoSentiment
    simp [h]
  · intro h1 h2
    unfold interpretYesNoSentiment
    simp [h1, h2]
  · intro h1 h2
    unfold interpretYesNoSentiment
    by_cases hc : ai.label = Sentiment.negative ∧ ai.score > Rat.divInt 7 10 <;>
      simp [h1, h2, hc]

/-- Claim C1, witness: `"yes"` matches the yes pattern and is classified
positive whatever the model said. -/
theorem claim_C1_witness :
    patTest yesPatterns "yes" = true ∧
    interpretYesNoSentiment "yes" ⟨Sentiment.neutral, 0⟩ = Sentiment.positive :=
  ⟨by decide, (claim_C1 "yes" ⟨Sentiment.neutral, 0⟩).1 (by decide)⟩

/-- Claim C2.  In `CONFIRMING_SCHEDULE` with a pending candidate: a
positive reply re-runs the conflict check for the candidate excluding
the sender; on conflict the session moves to `ASKING_DATE` with both
schedule candidates cleared and the booking table untouched; with no
conflict the booking is written and the session moves to `COMPLETED`; a
negative reply moves the session to `ASKING_CALL_TIME` with the pending
candidate cleared and the table untouched. -/
theorem claim_C2 (phone : String) (now : Nat) (s : Session) (table : BookingTable)
    (p : PendingSchedule) (_hs : s.state = ConvState.confirming_schedule)
    (hp : s.pendingSchedule = some p) :
    ((checkTimeConflict p.date p.time (some phone) table).hasConflict = true →
      handleScheduleConfirmation Sentiment.positive phone now s table =
        ({ s with state := ConvState.asking_date, currentQuestion := "date",
                  partialSchedule := none, pendingSchedule := none,
                  lastActivity := now }, table)) ∧
    ((checkTimeConflict p.date p.time (some phone) table).hasConflict = false →
      handleScheduleConfirmation Sentiment.positive phone now s table =
        ({ s with state := ConvState.completed, currentQuestion := "completed",
                  lastActivity := now }, saveCallSchedule phone p.date p.time table)) ∧
    (handleScheduleConfirmation Sentiment.negative phone now s table =
      ({ s with state := ConvState.asking_call_time, currentQuestion := "call_time",
                pendingSchedule := none, lastActivity := now }, table)) := by
  refine ⟨?_, ?_, ?_⟩
  · intro hc
    unfold handleScheduleConfirmation
    rw [hp]
    simp [hc]
  · intro hc
    unfold handleScheduleConfirmation
    rw [hp]
    simp [hc]
  · rfl

/-- Claim C2, witness: a confirming session over an empty table books
its pending candidate and completes. -/
theorem claim_C2_witness :
    handleScheduleConfirmation Sentiment.positive "111" 5
      { state := ConvState.confirming_schedule, currentQuestion := "schedule_confirmation",
        data := [], createdAt := 0, lastActivity := 0, waitingForFreeText := false,
        freeTextContext := none, metadata := ⟨0, 0⟩, partialSchedule := none,
        pendingSchedule := some ⟨"05/03/2024", "10:00", "05/03/2024::10:00", "tomorrow 10"⟩,
        finalSchedule := none, clarificationAttempts := 0 } [] =
      ({ state := ConvState.completed, currentQuestion := "completed",
         data := [], createdAt := 0, lastActivity := 5, waitingForFreeText := false,
         freeTextContext := none, metadata := ⟨0, 0⟩, partialSchedule := none,
         pendingSchedule := some ⟨"05/03/2024", "10:00", "05/03/2024::10:00", "tomorrow 10"⟩,
         finalSchedule := none, clarificationAttempts := 0 },
       [("111", ⟨"05/03/2024", "10:00", "scheduled"⟩)]) := by
  have h := claim_C2 "111" 5
    { state := ConvState.confirming_schedule, currentQuestion := "schedule_confirmation",
      data := [], createdAt := 0, lastActivity := 0, waitingForFreeText := false,
      freeTextContext := none, metadata := ⟨0, 0⟩, partialSchedule := none,
      pendingSchedule := some ⟨"05/03/2024", "10:00", "05/03/2024::10:00", "tomorrow 10"⟩,
      finalSchedule := none, clarificationAttempts := 0 } []
    ⟨"05/03/2024", "10:00", "05/03/2024::10:00", "tomorrow 10"⟩ rfl rfl
  rw [h.2.1 (by decide)]
  rfl

/-- Claim C3.  For a parseable candidate, the conflict check reports a
conflict exactly when some table entry of a non-excluded number with
a status that is neither cancelled nor completed parses to a combined
date and time strictly under 15 minutes away; a booking exactly 14
minutes away on either side conflicts while one exactly 15 minutes away
on either side does not; and the reported number is the first
qualifying entry in the table's iteration order. -/
theorem claim_C3 (d t : String) (ex : Option String) (table : BookingTable) (m : Nat)
    (hp : parseDateTime? d t = some m) :
    ((checkTimeConflict d t ex table).hasConflict = true ↔
      ∃ e ∈ table, ex ≠ some e.1 ∧ e.2.status ≠ "cancelled" ∧ e.2.status ≠ "completed" ∧
        ∃ mb, parseDateTime? e.2.date e.2.time = some mb ∧ minutesApart m mb < 15) ∧
    (∀ p b mb, parseDateTime? b.date b.time = some mb →
      ex ≠ some p → b.status ≠ "cancelled" → b.status ≠ "completed" →
      (((mb = m + 14 ∨ mb + 14 = m) →
          (checkTimeConflict d t ex [(p, b)]).hasConflict = true) ∧
       ((mb = m + 15 ∨ mb + 15 = m) →
          (checkTimeConflict d t ex [(p, b)]).hasConflict = false))) ∧
    ((checkTimeConflict d t ex table).conflictingPhone =
      (table.find? (entryConflicts m ex)).map Prod.fst) := by
  have hck : ∀ tb : BookingTable, checkTimeConflict d t ex tb = scanConflicts m ex tb := by
    intro tb
    unfold checkTimeConflict
    rw [hp]
  refine ⟨?_, ?_, ?_⟩
  · rw [hck, scanConflicts_hasConflict]
    rw [show ((table.find? (entryConflicts m ex)).isSome = true) ↔
        ∃ e, e ∈ table ∧ entryConflicts m ex e = true from List.find?_isSome]
    constructor
    · rintro ⟨e, hmem, he⟩
      rw [entryConflicts_iff] at he
      exact ⟨e, hmem, he⟩
    · rintro ⟨e, hmem, he⟩
      exact ⟨e, hmem, (entryConflicts_iff m ex e).mpr he⟩
  · intro p b mb hpb hex hc1 hc2
    have hact : ¬(b.status == "cancelled" || b.status == "completed") = true := by
      simp [hc1, hc2]
    have hexb : ¬(ex == some p) = true := by
      simp [hex]
    constructor
    · intro hmb
      rw [hck]
      unfold scanConflicts
      rw [if_neg hexb, if_neg hact, hpb]
      have : minutesApart m mb < 15 := by
        unfold minutesApart
        omega
      simp [this]
    · intro hmb
      rw [hck]
      unfold scanConflicts
      rw [if_neg hexb, if_neg hact, hpb]
      have : ¬ minutesApart m mb < 15 := by
        unfold minutesApart
        omega
      simp [this]
      rfl
  · rw [hck, scanConflicts_phone]

/-- Claim C3, witness: a booking 14 minutes after the candidate is
reported as the conflicting one. -/
theorem claim_C3_witness :
    (checkTimeConflict "05/03/2024" "10:00" none
      [("222", ⟨"05/03/2024", "10:14", "scheduled"⟩)]).conflictingPhone = some "222" := by
  have h := (claim_C3 "05/03/2024" "10:00" none
    [("222", ⟨"05/03/2024", "10:14", "scheduled"⟩)]
    (toMinutes ⟨5, 3, 2024, 10, 0⟩) (by decide)).2.2
  rw [h]
  decide

/-- Claim C4.  A text matching an immediate keyword makes the resolver
answer with the reference instant's own date and time, both fields
present, the immediate flag set; and the past-time check on that result
at the same reference instant is false for every valid reference
instant. -/
theorem claim_C4 (text : String) (now : DateTime) (hv : ValidDateTime now)
    (hy : now.year ≤ 9999) (him : isImmediateText text = true) :
    parseTimeExpression text now =
      { success := true, date := some (formatDDMMYYYY now), time := some (formatHHmm now),
        hasDate := true, hasTime := true,
        formatted := some (formatDDMMYYYY now ++ "::" ++ formatHHmm now),
        complete := true, immediate := true, partialResult := false,
        needsDate := false, needsTime := false } ∧
    isDateTimeInPast (formatDDMMYYYY now) (formatHHmm now) now text = false := by
  constructor
  · unfold parseTimeExpression
    simp [him]
  · unfold isDateTimeInPast
    by_cases hp2 : patTest pastImmediateAlts text = true
    · simp [hp2]
    · simp only [hp2, Bool.false_eq_true, if_false]
      rw [parseDateTime?_format now hv hy]
      simp only [decide_eq_false_iff_not]
      omega

/-- Claim C4, witness: the text `"now"` at a concrete reference
instant. -/
theorem claim_C4_witness :
    parseTimeExpression "now" ⟨5, 3, 2024, 10, 0⟩ =
      { success := true, date := some "05/03/2024", time := some "10:00",
        hasDate := true, hasTime := true, formatted := some "05/03/2024::10:00",
        complete := true, immediate := true, partialResult := false,
        needsDate := false, needsTime := false } ∧
    isDateTimeInPast "05/03/2024" "10:00" ⟨5, 3, 2024, 10, 0⟩ "now" = false := by
  have h := claim_C4 "now" ⟨5, 3, 2024, 10, 0⟩ (by decide) (by decide) (by decide)
  constructor
  · rw [h.1]
    decide
  · have e1 : formatDDMMYYYY ⟨5, 3, 2024, 10, 0⟩ = "05/03/2024" := by decide
    have e2 : formatHHmm ⟨5, 3, 2024, 10, 0⟩ = "10:00" := by decide
    rw [← e1, ← e2]
    exact h.2

/-- Claim C5, counterexample.  The claim puts the pending count 5 in the
shorter-delay bucket (1000 ms); the code's `queueSize > 5` comparison
leaves a queue of exactly five pending identifiers at the full default
delay of 2000 ms. -/
theorem claim_C5_counterexample :
    isCriticalEvent pendingFive = false ∧ pendingFive.length = 5 ∧
    debounceSave pendingFive = SaveAction.delayed 2000 ∧
    ¬ debounceSave pendingFive = SaveAction.delayed 1000 := by
  refine ⟨by decide, by decide, by decide, by decide⟩

/-- Claim C5, amended.  A queued `state_change` or `completion` reason
flushes synchronously with no delay; otherwise the delay is the full
default 2000 ms for at most five pending identifiers, 1000 ms for six to
nine, and 500 ms once the pending count reaches the batch cap of
ten. -/
theorem claim_C5 (q : SaveQueue) :
    (isCriticalEvent q = true → debounceSave q = SaveAction.immediate) ∧
    (isCriticalEvent q = false → q.length ≤ 5 →
      debounceSave q = SaveAction.delayed 2000) ∧
    (isCriticalEvent q = false → 5 < q.length → q.length < 10 →
      debounceSave q = SaveAction.delayed 1000) ∧
    (isCriticalEvent q = false → 10 ≤ q.length →
      debounceSave q = SaveAction.delayed 500) := by
  unfold debounceSave calculateDynamicDelay
  refine ⟨fun h => by simp [h], fun h h5 => ?_, fun h h5 h10 => ?_, fun h h10 => ?_⟩
  · simp [h]
    rw [if_neg (by omega), if_neg (by omega)]
  · simp [h]
    rw [if_neg (by omega), if_pos (by omega)]
  · simp [h]
    rw [if_pos (by omega)]
    omega

/-- Claim C5, witness: a single queued state change saves
synchronously. -/
theorem claim_C5_witness :
    debounceSave [("a@c.us", ⟨0, "state_change"⟩)] = SaveAction.immediate :=
  (claim_C5 [("a@c.us", ⟨0, "state_change"⟩)]).1 (by decide)

/-- Claim C6.  From `GREETING` or `WAITING_INITIAL_RESPONSE`, a positive
reply moves to `ASKING_CALL_TIME`, a negative one to `ASKING_REASON`,
and a neutral one to `CLARIFYING_RESPONSE` incrementing the
clarification counter; from `CLARIFYING_RESPONSE`, any number of
consecutive neutral replies leaves the state unchanged while the
counter keeps growing without bound. -/
theorem claim_C6 (now : Nat) (s s2 : Session)
    (_h : s.state = ConvState.greeting ∨ s.state = ConvState.waiting_initial_response)
    (h2 : s2.state = ConvState.clarifying_response) :
    ((handleInitialResponse Sentiment.positive now s).state =
      ConvState.asking_call_time) ∧
    ((handleInitialResponse Sentiment.negative now s).state =
      ConvState.asking_reason) ∧
    ((handleInitialResponse Sentiment.neutral now s).state =
        ConvState.clarifying_response ∧
      (handleInitialResponse Sentiment.neutral now s).clarificationAttempts =
        s.clarificationAttempts + 1) ∧
    (∀ n : Nat,
      ((handleClarificationResponse Sentiment.neutral now)^[n] s2).state =
        ConvState.clarifying_response ∧
      ((handleClarificationResponse Sentiment.neutral now)^[n] s2).clarificationAttempts =
        s2.clarificationAttempts + n) := by
  refine ⟨rfl, rfl, ⟨rfl, rfl⟩, ?_⟩
  intro n
  induction n with
  | zero => exact ⟨h2, rfl⟩
  | succ k ih =>
    rw [Function.iterate_succ_apply']
    refine ⟨ih.1, ?_⟩
    simp [handleClarificationResponse, ih.2]
    omega

/-- Claim C6, witness: a positive reply in `WAITING_INITIAL_RESPONSE`
moves the session to `ASKING_CALL_TIME`. -/
theorem claim_C6_witness :
    (handleInitialResponse Sentiment.positive 3
      { state := ConvState.waiting_initial_response, currentQuestion := "initial_response",
        data := [], createdAt := 0, lastActivity := 0, waitingForFreeText := false,
        freeTextContext := none, metadata := ⟨0, 0⟩, partialSchedule := none,
        pendingSchedule := none, finalSchedule := none,
        clarificationAttempts := 0 }).state = ConvState.asking_call_time :=
  (claim_C6 3
    { state := ConvState.waiting_initial_response, currentQuestion := "initial_response",
      data := [], createdAt := 0, lastActivity := 0, waitingForFreeText := false,
      freeTextContext := none, metadata := ⟨0, 0⟩, partialSchedule := none,
      pendingSchedule := none, finalSchedule := none, clarificationAttempts := 0 }
    { state := ConvState.clarifying_response, currentQuestion := "clarification",
      data := [], createdAt := 0, lastActivity := 0, waitingForFreeText := false,
      freeTextContext := none, metadata := ⟨0, 0⟩, partialSchedule := none,
      pendingSchedule := none, finalSchedule := none, clarificationAttempts := 1 }
    (Or.inr rfl) rfl).1

/-- Claim C7.  The resolved date for a weekday target is strictly after
the reference day and lands on the requested weekday: exactly seven days
ahead when the target equals the reference day's weekday, and the next
future occurrence, one to six days ahead, otherwise. -/
theorem claim_C7 (now : DateTime) (target : Nat) (hv : ValidDateTime now)
    (hy : now.year ≤ 9992) (ht : target < 7) :
    ∃ d m y, parseDate? (getNextWeekday now target) = some (d, m, y) ∧
      totalDaysYMD d m y > totalDays now ∧
      (totalDaysYMD d m y + 6) % 7 = target ∧
      (target = weekdayOf now → totalDaysYMD d m y = totalDays now + 7) ∧
      (target ≠ weekdayOf now →
        1 ≤ (target + 7 - weekdayOf now) % 7 ∧ (target + 7 - weekdayOf now) % 7 ≤ 6 ∧
        totalDaysYMD d m y = totalDays now + (target + 7 - weekdayOf now) % 7) := by
  obtain ⟨k, hk1, hk7, heq, hmod, hiff⟩ := getNextWeekday_spec now target ht
  have hva := valid_addDays now k hv
  have hyr : (addDays now k).year ≤ 9999 := by
    have := year_addDays now k
    omega
  have hrt := parseDate?_format (addDays now k) hva hyr
  have htd := totalDays_addDays now k hv
  have hw : weekdayOf now < 7 := by
    unfold weekdayOf
    omega
  refine ⟨(addDays now k).day, (addDays now k).month, (addDays now k).year,
    ?_, ?_, ?_, ?_, ?_⟩
  · rw [heq]
    exact hrt
  · show totalDays (addDays now k) > totalDays now
    omega
  · show (totalDays (addDays now k) + 6) % 7 = target
    unfold weekdayOf at hmod
    omega
  · intro hteq
    have hke : k = 7 := hiff.mpr hteq
    show totalDays (addDays now k) = totalDays now + 7
    omega
  · intro htne
    have hk7' : k ≠ 7 := fun hh => htne (hiff.mp hh)
    refine ⟨?_, ?_, ?_⟩
    · unfold weekdayOf at hmod ⊢
      omega
    · unfold weekdayOf at hmod ⊢
      omega
    · show totalDays (addDays now k) = totalDays now + (target + 7 - weekdayOf now) % 7
      unfold weekdayOf at hmod ⊢
      omega

/-- Claim C7, witness: asking for Tuesday on a Tuesday lands exactly
seven days later. -/
theorem claim_C7_witness :
    parseDate? (getNextWeekday ⟨5, 3, 2024, 10, 0⟩ 2) = some (12, 3, 2024) ∧
    totalDaysYMD 12 3 2024 = totalDays ⟨5, 3, 2024, 10, 0⟩ + 7 := by
  obtain ⟨d, m, y, h1, h2, h3, h4, h5⟩ :=
    claim_C7 ⟨5, 3, 2024, 10, 0⟩ 2 (by decide) (by decide) (by decide)
  have h4' := h4 (by decide)
  have hx : parseDate? "12/03/2024" = some (d, m, y) := by
    rw [show "12/03/2024" = getNextWeekday ⟨5, 3, 2024, 10, 0⟩ 2 from by decide]
    exact h1
  have hy2 : parseDate? "12/03/2024" = some (12, 3, 2024) := by decide
  rw [hx] at hy2
  simp only [Option.some.injEq, Prod.mk.injEq] at hy2
  obtain ⟨e1, e2, e3⟩ := hy2
  subst e1
  subst e2
  subst e3
  exact ⟨h1, h4'⟩

/-- Claim C8.  Serializing a session and reloading it through the load
path reproduces the state, the data bag and both instant fields
exactly (and so in particular at whole-second precision). -/
theorem claim_C8 (now : Nat) (s : Session) :
    (loadSession (serializeSession now s)).state = s.state ∧
    (loadSession (serializeSession now s)).data = s.data ∧
    (loadSession (serializeSession now s)).createdAt = s.createdAt ∧
    (loadSession (serializeSession now s)).lastActivity = s.lastActivity :=
  ⟨rfl, rfl, rfl, rfl⟩

/-- Claim C9.  The serialized form carries exactly the eight fields of
`SerializedSession`: it is unchanged by any values of the schedule
candidates and the clarification counter, and a flush-and-reload comes
back with no pending, partial or final schedule and a zero
clarification counter. -/
theorem claim_C9 (now : Nat) (s : Session) (ps : Option PartialSchedule)
    (qs fs : Option PendingSchedule) (n : Nat) :
    (serializeSession now
        { s with
          partialSchedule := ps
          pendingSchedule := qs
          finalSchedule := fs
          clarificationAttempts := n } =
      serializeSession now s) ∧
    (loadSession (serializeSession now s)).pendingSchedule = none ∧
    (loadSession (serializeSession now s)).partialSchedule = none ∧
    (loadSession (serializeSession now s)).finalSchedule = none ∧
    (loadSession (serializeSession now s)).clarificationAttempts = 0 :=
  ⟨rfl, rfl, rfl, rfl, rfl⟩

/-- Claim C10.  A candidate whose date or time does not parse makes the
conflict check answer no-conflict rather than fail, and a missing or
unreadable booking table does the same: the check fails open. -/
theorem claim_C10 :
    (∀ d t ex table, parseDateTime? d t = none →
      checkTimeConflict d t ex table = noConflict) ∧
    (∀ d t ex, checkTimeConflictFile d t ex none = noConflict) := by
  constructor
  · intro d t ex table hp
    unfold checkTimeConflict
    rw [hp]
  · intro d t ex
    rfl

/-- Claim C10, witness: a word-salad candidate yields no conflict even
against a populated table. -/
theorem claim_C10_witness :
    checkTimeConflict "whenever" "soonish" none
      [("111", ⟨"05/03/2024", "10:00", "scheduled"⟩)] = noConflict :=
  claim_C10.1 "whenever" "soonish" none _ (by decide)

end WpScheduler
